import Mathlib

/-!
Verification development for the HCSnode secure-transport core.

Shallow embedding of the AES-256-GCM framing transport
(`hcs_net::TransportAES256`) and the password-based key provider
(`hcs_net::PBKDF2KeyProvider`).  Bytes are modelled as `Nat` with explicit
`% 256` / `% 2 ^ 64` where the C++ integer width matters; byte buffers are
`List Nat`; C++ exceptions are modelled with `Except String`.

The AES-256 block primitive lives in OpenSSL, outside this repository, so
the model is parameterised by an arbitrary block-cipher function
`BlockCipher`; the GCM mode of operation around it (counter-mode keystream,
GHASH tag, nonce layout, frame layout) is translated from the source.
-/

namespace hcs_net

/-- Constants from `TransportAES256.h`. -/
def AES256_KEY_SIZE : Nat := 32

/-- GCM nonce size in bytes. -/
def GCM_IV_SIZE : Nat := 12

/-- GCM authentication-tag size in bytes. -/
def GCM_TAG_SIZE : Nat := 16

/-- Added bytes per encrypted frame: nonce plus tag. -/
def ENCRYPTED_OVERHEAD : Nat := GCM_IV_SIZE + GCM_TAG_SIZE

/-- A network endpoint (`hcs_net::Endpoint`): address string and port. -/
structure Endpoint where
  address : String
  port : Nat
deriving DecidableEq

/-- The external AES-256 block primitive (OpenSSL `EVP_aes_256_gcm`'s
underlying block cipher): a function from key and 16-byte block to a
16-byte block.  Kept abstract as a parameter of the model. -/
def BlockCipher : Type := List Nat → List Nat → List Nat

/-- Normalise a block-cipher output to exactly 16 bytes, modelling the fact
that the real AES primitive always yields a full 16-byte block. -/
def blockOf (E : BlockCipher) (key blk : List Nat) : List Nat :=
  ((E key blk).take 16) ++ List.replicate (16 - (E key blk).length) 0

/-- Big-endian byte encoding of `v` in exactly `n` bytes. -/
def natToBytesBE : Nat → Nat → List Nat
  | 0, _ => []
  | n + 1, v => natToBytesBE n (v / 256) ++ [v % 256]

/-- Big-endian value of a byte list (each entry reduced mod 256). -/
def bytesToNatBE (l : List Nat) : Nat :=
  l.foldl (fun acc b => acc * 256 + b % 256) 0

/-- The `i`-th GCM counter block for a 96-bit IV: `iv || BE32 (1 + i)`.
Index `0` is the pre-counter block `J0`; data block `j` uses index
`j + 1`. -/
def counterBlock (iv : List Nat) (i : Nat) : List Nat :=
  iv ++ natToBytesBE 4 ((1 + i) % 2 ^ 32)

/-- First `n` bytes of the GCM counter-mode keystream. -/
def keystream (E : BlockCipher) (key iv : List Nat) (n : Nat) : List Nat :=
  (List.range n).map
    (fun j => (blockOf E key (counterBlock iv (j / 16 + 1))).getD (j % 16) 0)

/-- GCM counter-mode body: XOR the data with the keystream.  The same
function encrypts and decrypts. -/
def gcmCTR (E : BlockCipher) (key iv data : List Nat) : List Nat :=
  List.zipWith Nat.xor data (keystream E key iv data.length)

/-- The GHASH reduction constant for GF(2^128). -/
def R128 : Nat := 0xe1000000000000000000000000000000

/-- Fuel-indexed core of GF(2^128) multiplication (NIST SP 800-38D,
bit `127 - i` of `x` processed when the fuel is `i + 1`). -/
def gmulAux : Nat → Nat → Nat → Nat → Nat
  | 0, _, _, z => z
  | i + 1, x, v, z =>
      gmulAux i x (if v % 2 = 1 then Nat.xor (v / 2) R128 else v / 2)
        (if Nat.testBit x i then Nat.xor z v else z)

/-- Multiplication in GF(2^128) as used by GHASH. -/
def gmul (x y : Nat) : Nat := gmulAux 128 x y 0

/-- Zero-pad a byte list on the right to a multiple of 16 bytes. -/
def padTo16 (l : List Nat) : List Nat :=
  l ++ List.replicate ((16 - l.length % 16) % 16) 0

/-- The GHASH length block for no AAD and an `n`-byte ciphertext. -/
def lenBlock (n : Nat) : List Nat :=
  natToBytesBE 8 0 ++ natToBytesBE 8 ((8 * n) % 2 ^ 64)

/-- GHASH over a byte string whose length is a multiple of 16. -/
def ghash (h : Nat) (data : List Nat) : Nat :=
  (List.range ((data.length + 15) / 16)).foldl
    (fun y i => gmul (Nat.xor y (bytesToNatBE ((data.drop (16 * i)).take 16))) h) 0

/-- The 16-byte GCM authentication tag for a ciphertext (no AAD):
`GHASH_H(pad(C) || len) XOR E_K(J0)`. -/
def gcmTag (E : BlockCipher) (key iv ct : List Nat) : List Nat :=
  List.zipWith Nat.xor
    (natToBytesBE 16
      (ghash (bytesToNatBE (blockOf E key (List.replicate 16 0)))
        (padTo16 ct ++ lenBlock ct.length)))
    (blockOf E key (counterBlock iv 0))

/-- The 12-byte nonce built by `TransportAES256::Encrypt`: bytes 0-3 are
the fixed constant `00 00 00 01`; the loop
`iv[GCM_IV_SIZE - 1 - i] = (uint8_t)(iv_value >> (i * 8))` stores byte
`i` of the counter at index `11 - i`, so byte `4 + j` holds
`ivValue / 256 ^ (7 - j) % 256`. -/
def makeIV (ivValue : Nat) : List Nat :=
  [0x00, 0x00, 0x00, 0x01] ++ (List.range 8).map (fun j => ivValue / 256 ^ (7 - j) % 256)

/-- The nonce layout the specification describes: the same fixed prefix,
followed by the counter in little-endian byte order (byte `4 + j` holds
`ivValue / 256 ^ j % 256`).  Written from the spec's words, for comparison
with `makeIV`, which is translated from the source. -/
def specNonceLE (ivValue : Nat) : List Nat :=
  [0x00, 0x00, 0x00, 0x01] ++ (List.range 8).map (fun j => ivValue / 256 ^ j % 256)

/-- State of the wrapped raw transport, as the secure layer observes it:
whether its receive loop has been started, and the frames handed to its
`Send` (with their destination), in order. -/
structure BaseTransport where
  started : Bool
  sent : List (List Nat × Endpoint)
deriving DecidableEq

/-- State of one `TransportAES256` instance: the key provider's key bytes,
the wrapped raw transport, whether a user receive callback is registered
(`user_callback_`), and the 64-bit nonce counter `current_iv_counter_`
(reduced mod `2 ^ 64` at each use). -/
structure TransportAES256 where
  key : List Nat
  base : BaseTransport
  callbackSet : Bool
  counter : Nat
deriving DecidableEq

namespace TransportAES256

/-- The frame emitted for plaintext `pt` when the counter reads `c`:
`nonce || ciphertext || tag`. -/
def frameOf (E : BlockCipher) (key : List Nat) (c : Nat) (pt : List Nat) : List Nat :=
  makeIV (c % 2 ^ 64) ++ gcmCTR E key (makeIV (c % 2 ^ 64)) pt
    ++ gcmTag E key (makeIV (c % 2 ^ 64)) (gcmCTR E key (makeIV (c % 2 ^ 64)) pt)

/-- `TransportAES256::Encrypt`: reject a key that is not 32 bytes, build
the nonce from the post-incremented counter, and return
`nonce || ciphertext || tag` together with the updated state. -/
def Encrypt (E : BlockCipher) (st : TransportAES256) (plaintext : List Nat) :
    Except String (List Nat × TransportAES256) :=
  if st.key.length ≠ AES256_KEY_SIZE then
    .error "Invalid encryption key size."
  else
    .ok (frameOf E st.key st.counter plaintext, { st with counter := st.counter + 1 })

/-- `TransportAES256::Decrypt`: reject frames shorter than 28 bytes and
keys that are not 32 bytes, split the frame into nonce, ciphertext and
tag, decrypt in counter mode and verify the tag. -/
def Decrypt (E : BlockCipher) (key : List Nat) (packet : List Nat) :
    Except String (List Nat) :=
  if packet.length < ENCRYPTED_OVERHEAD then
    .error "Encrypted packet is too short."
  else if key.length ≠ AES256_KEY_SIZE then
    .error "Invalid decryption key size."
  else
    let ctLen := packet.length - ENCRYPTED_OVERHEAD
    let iv := packet.take GCM_IV_SIZE
    let ct := (packet.drop GCM_IV_SIZE).take ctLen
    let tag := packet.drop (packet.length - GCM_TAG_SIZE)
    if gcmTag E key iv ct = tag then .ok (gcmCTR E key iv ct)
    else .error "Authentication failed (MAC error). Packet forged or corrupted."

/-- `TransportAES256::Send`: encrypt, then hand the frame to the raw
transport; any exception from `Encrypt` is caught and only logged, so on
failure nothing is transmitted and no retry happens. -/
def Send (E : BlockCipher) (st : TransportAES256) (data : List Nat)
    (destination : Endpoint) : TransportAES256 :=
  match Encrypt E st data with
  | .ok (pkt, st') =>
      { st' with base := { st'.base with sent := st'.base.sent ++ [(pkt, destination)] } }
  | .error _ => st

/-- `TransportAES256::DecryptAndHandle`: try to decrypt; on success invoke
the user callback (when registered) once with the plaintext and sender; on
any `Decrypt` exception catch it and only log.  The function is total —
the returned first component lists the callback invocations — which is the
model of "no exception propagates past the transport boundary". -/
def DecryptAndHandle (E : BlockCipher) (st : TransportAES256) (data : List Nat)
    (sender : Endpoint) : List (List Nat × Endpoint) × TransportAES256 :=
  match Decrypt E st.key data with
  | .ok pt => if st.callbackSet then ([(pt, sender)], st) else ([], st)
  | .error _ => ([], st)

/-- `TransportAES256::Start`: delegates to the wrapped raw transport's
`Start` — and nothing else (no key validation). -/
def Start (st : TransportAES256) : TransportAES256 :=
  { st with base := { st.base with started := true } }

/-- `TransportAES256::Stop`: delegates to the wrapped raw transport's
`Stop` — and nothing else (the user callback member is left untouched). -/
def Stop (st : TransportAES256) : TransportAES256 :=
  { st with base := { st.base with started := false } }

/-- `TransportAES256::SetReceiveCallback`: replace the registered user
callback (modelled by the flag that one is registered). -/
def SetReceiveCallback (st : TransportAES256) (registered : Bool) : TransportAES256 :=
  { st with callbackSet := registered }

/-- Fold `Send` over a list of plaintexts, modelling `N` consecutive send
operations on one instance. -/
def iterSend (E : BlockCipher) (st : TransportAES256) (pts : List (List Nat))
    (destination : Endpoint) : TransportAES256 :=
  pts.foldl (fun s p => Send E s p destination) st

/-- The frames emitted by consecutive sends starting at counter `c`. -/
def frameSeq (E : BlockCipher) (key : List Nat) : Nat → List (List Nat) → List (List Nat)
  | _, [] => []
  | c, pt :: rest => frameOf E key c pt :: frameSeq E key (c + 1) rest

end TransportAES256

/-- Constants from the PBKDF2 key provider source. -/
def PBKDF2_ITERATIONS : Nat := 310000

/-- Salt size required by the PBKDF2 key provider. -/
def PBKDF2_SALT_SIZE : Nat := 16

/-- Output key size of the PBKDF2 key provider. -/
def PBKDF2_OUTPUT_SIZE : Nat := AES256_KEY_SIZE

/-- The immutable state of a constructed `PBKDF2KeyProvider`. -/
structure PBKDF2KeyProvider where
  derived_key : List Nat
  salt : List Nat
deriving DecidableEq

/-- The 16-byte salt written by `RAND_bytes` into the `resize`d buffer,
given the raw bytes `rs` the RNG produced. -/
def genSalt (rs : List Nat) : List Nat :=
  (rs ++ List.replicate PBKDF2_SALT_SIZE 0).take PBKDF2_SALT_SIZE

/-- The `PBKDF2KeyProvider` constructor.  The two OpenSSL primitives are
parameters of the model: `randOk` is the success flag of `RAND_bytes`
(with `rs` the bytes it produced), and `pbkdf2 password salt iterations`
models `PKCS5_PBKDF2_HMAC`, returning `none` on primitive failure.
An empty `salt_bytes` (the default argument) triggers random-salt
generation; a non-empty salt must be exactly 16 bytes; every failure is a
thrown exception, so no partially-initialized provider value exists. -/
def mkPBKDF2KeyProvider (randOk : Bool) (rs : List Nat)
    (pbkdf2 : List Nat → List Nat → Nat → Option (List Nat))
    (password salt_bytes : List Nat) : Except String PBKDF2KeyProvider :=
  if salt_bytes = [] then
    if randOk then
      match pbkdf2 password (genSalt rs) PBKDF2_ITERATIONS with
      | some key => .ok ⟨key, genSalt rs⟩
      | none => .error "Failed to derive encryption key using PBKDF2."
    else .error "Failed to generate random salt."
  else if salt_bytes.length ≠ PBKDF2_SALT_SIZE then
    .error "Provided salt size must be 16 bytes."
  else
    match pbkdf2 password salt_bytes PBKDF2_ITERATIONS with
    | some key => .ok ⟨key, salt_bytes⟩
    | none => .error "Failed to derive encryption key using PBKDF2."

/-- Big-endian readback of a byte list, inverse of the nonce counter
encoding on 8-byte suffixes. -/
def beDecode (l : List Nat) : Nat := l.foldl (fun acc b => acc * 256 + b) 0

/-- A trivial concrete block cipher used to instantiate the model at
concrete inputs (the round-trip and framing theorems hold for every
block cipher). -/
def E0 : BlockCipher := fun _ _ => List.replicate 16 0

/-- A concrete all-zero 32-byte key. -/
def key0 : List Nat := List.replicate 32 0

/-- A concrete endpoint. -/
def ep0 : Endpoint := ⟨"127.0.0.1", 5000⟩

/-- A transport state with a valid key and no registered callback. -/
def st0 : TransportAES256 := ⟨key0, ⟨false, []⟩, false, 0⟩

/-- A started transport state with a valid key and a registered callback. -/
def stCb : TransportAES256 := ⟨key0, ⟨true, []⟩, true, 0⟩

/-- A transport state whose key has the invalid length 31. -/
def badSt : TransportAES256 := ⟨List.replicate 31 0, ⟨true, []⟩, true, 0⟩

/-- A valid 28-byte frame for `E0`/`key0` with empty payload: nonce for
counter 0 followed by the (all-zero) tag. -/
def frame0 : List Nat := makeIV 0 ++ List.replicate 16 0

/-- A concrete PBKDF2 primitive that always succeeds with a fixed key. -/
def pb0 : List Nat → List Nat → Nat → Option (List Nat) :=
  fun _ _ _ => some (List.replicate 32 1)

theorem natToBytesBE_length (n : Nat) : ∀ v, (natToBytesBE n v).length = n := by
  induction n with
  | zero => intro v; rfl
  | succ n ih => intro v; simp [natToBytesBE, ih]

theorem blockOf_length (E : BlockCipher) (key blk : List Nat) :
    (blockOf E key blk).length = 16 := by
  simp [blockOf]
  omega

theorem keystream_length (E : BlockCipher) (key iv : List Nat) (n : Nat) :
    (keystream E key iv n).length = n := by
  simp [keystream]

theorem gcmCTR_length (E : BlockCipher) (key iv d : List Nat) :
    (gcmCTR E key iv d).length = d.length := by
  simp [gcmCTR, keystream_length]

theorem gcmTag_length (E : BlockCipher) (key iv ct : List Nat) :
    (gcmTag E key iv ct).length = 16 := by
  simp [gcmTag, natToBytesBE_length, blockOf_length]

theorem makeIV_length (v : Nat) : (makeIV v).length = GCM_IV_SIZE := by
  simp [makeIV, GCM_IV_SIZE]

theorem zipWith_xor_cancel :
    ∀ (p ks : List Nat), p.length ≤ ks.length →
      List.zipWith Nat.xor (List.zipWith Nat.xor p ks) ks = p
  | [], _, _ => by simp
  | _ :: _, [], h => by simp at h
  | x :: p, k :: ks, h => by
      simp only [List.zipWith_cons_cons]
      rw [show Nat.xor (Nat.xor x k) k = x from Nat.xor_cancel_right k x,
        zipWith_xor_cancel p ks (by simpa using h)]

theorem gcmCTR_invol (E : BlockCipher) (key iv pt : List Nat) :
    gcmCTR E key iv (gcmCTR E key iv pt) = pt := by
  unfold gcmCTR
  rw [List.length_zipWith, keystream_length, Nat.min_self]
  exact zipWith_xor_cancel pt _ (le_of_eq (keystream_length E key iv pt.length).symm)

theorem Decrypt_split (E : BlockCipher) (key iv ct tag : List Nat)
    (hk : key.length = AES256_KEY_SIZE)
    (hiv : iv.length = GCM_IV_SIZE) (htag : tag.length = GCM_TAG_SIZE) :
    TransportAES256.Decrypt E key (iv ++ ct ++ tag) =
      if gcmTag E key iv ct = tag then .ok (gcmCTR E key iv ct)
      else .error "Authentication failed (MAC error). Packet forged or corrupted." := by
  have hlen : (iv ++ ct ++ tag).length = GCM_IV_SIZE + ct.length + GCM_TAG_SIZE := by
    simp [hiv, htag]
    omega
  have h1 : ¬ ((iv ++ ct ++ tag).length < ENCRYPTED_OVERHEAD) := by
    rw [hlen]
    simp [ENCRYPTED_OVERHEAD, GCM_IV_SIZE, GCM_TAG_SIZE]
  have h2 : ¬ (key.length ≠ AES256_KEY_SIZE) := by simp [hk]
  have htake : (iv ++ ct ++ tag).take GCM_IV_SIZE = iv := by
    rw [List.append_assoc]
    exact List.take_left' hiv
  have hmid : ((iv ++ ct ++ tag).drop GCM_IV_SIZE).take
      ((iv ++ ct ++ tag).length - ENCRYPTED_OVERHEAD) = ct := by
    have hctlen : (iv ++ ct ++ tag).length - ENCRYPTED_OVERHEAD = ct.length := by
      rw [hlen]
      simp [ENCRYPTED_OVERHEAD, GCM_IV_SIZE, GCM_TAG_SIZE]
    rw [hctlen, List.append_assoc, List.drop_left' hiv]
    exact List.take_left' rfl
  have htg : (iv ++ ct ++ tag).drop ((iv ++ ct ++ tag).length - GCM_TAG_SIZE) = tag := by
    rw [show (iv ++ ct ++ tag).length - GCM_TAG_SIZE = (iv ++ ct).length by
      simp [hiv, htag, GCM_IV_SIZE, GCM_TAG_SIZE]
      omega]
    exact List.drop_left (iv ++ ct) tag
  unfold TransportAES256.Decrypt
  rw [if_neg h1, if_neg h2]
  simp only [htake, hmid, htg]

theorem Encrypt_ok (E : BlockCipher) (st : TransportAES256) (pt : List Nat)
    (hk : st.key.length = AES256_KEY_SIZE) :
    TransportAES256.Encrypt E st pt =
      .ok (TransportAES256.frameOf E st.key st.counter pt, { st with counter := st.counter + 1 }) := by
  unfold TransportAES256.Encrypt
  rw [if_neg (by simp [hk])]

theorem Encrypt_err (E : BlockCipher) (st : TransportAES256) (pt : List Nat)
    (hk : st.key.length ≠ AES256_KEY_SIZE) :
    TransportAES256.Encrypt E st pt = .error "Invalid encryption key size." := by
  unfold TransportAES256.Encrypt
  rw [if_pos hk]

theorem Send_of_error (E : BlockCipher) (st : TransportAES256) (pt : List Nat)
    (dest : Endpoint) (msg : String)
    (h : TransportAES256.Encrypt E st pt = .error msg) :
    TransportAES256.Send E st pt dest = st := by
  unfold TransportAES256.Send
  rw [h]

theorem Decrypt_frameOf (E : BlockCipher) (key : List Nat) (c : Nat) (pt : List Nat)
    (hk : key.length = AES256_KEY_SIZE) :
    TransportAES256.Decrypt E key (TransportAES256.frameOf E key c pt) = .ok pt := by
  unfold TransportAES256.frameOf
  rw [Decrypt_split E key _ _ _ hk (makeIV_length _) (gcmTag_length ..),
    if_pos rfl, gcmCTR_invol]

theorem Send_ok (E : BlockCipher) (st : TransportAES256) (pt : List Nat) (dest : Endpoint)
    (hk : st.key.length = AES256_KEY_SIZE) :
    TransportAES256.Send E st pt dest =
      { st with counter := st.counter + 1,
                base := { st.base with sent :=
                  st.base.sent ++ [(TransportAES256.frameOf E st.key st.counter pt, dest)] } } := by
  unfold TransportAES256.Send
  rw [Encrypt_ok E st pt hk]

theorem iterSend_spec (E : BlockCipher) (dest : Endpoint) :
    ∀ (pts : List (List Nat)) (st : TransportAES256), st.key.length = AES256_KEY_SIZE →
      TransportAES256.iterSend E st pts dest =
        { st with counter := st.counter + pts.length,
                  base := { st.base with sent := st.base.sent ++
                    (TransportAES256.frameSeq E st.key st.counter pts).map (fun f => (f, dest)) } }
  | [], st, hk => by
      simp [TransportAES256.iterSend, TransportAES256.frameSeq]
  | pt :: rest, st, hk => by
      have h1 : TransportAES256.iterSend E st (pt :: rest) dest
          = TransportAES256.iterSend E (TransportAES256.Send E st pt dest) rest dest := by
        simp [TransportAES256.iterSend]
      rw [h1, Send_ok E st pt dest hk,
        iterSend_spec E dest rest
          { st with counter := st.counter + 1,
                    base := { st.base with sent :=
                      st.base.sent ++ [(TransportAES256.frameOf E st.key st.counter pt, dest)] } }
          hk]
      cases st with
      | mk key base cb ctr =>
        cases base with
        | mk started sent =>
          simp [TransportAES256.frameSeq]
          omega

theorem frameSeq_nonce (E : BlockCipher) (key : List Nat) :
    ∀ (pts : List (List Nat)) (c k : Nat), k < pts.length →
      ((TransportAES256.frameSeq E key c pts).getD k []).take GCM_IV_SIZE
        = makeIV ((c + k) % 2 ^ 64)
  | [], _, k, h => by simp at h
  | pt :: rest, c, 0, _ => by
      simp only [TransportAES256.frameSeq, List.getD_cons_zero, TransportAES256.frameOf,
        List.append_assoc, Nat.add_zero]
      exact List.take_left' (makeIV_length _)
  | pt :: rest, c, k + 1, h => by
      simp only [TransportAES256.frameSeq, List.getD_cons_succ]
      rw [frameSeq_nonce E key rest (c + 1) k (by simpa using h)]
      congr 1
      omega

theorem beDecode_makeIV (v : Nat) (hv : v < 2 ^ 64) :
    beDecode ((makeIV v).drop 4) = v := by
  have h : (makeIV v).drop 4 =
      [v / 256 ^ 7 % 256, v / 256 ^ 6 % 256, v / 256 ^ 5 % 256, v / 256 ^ 4 % 256,
       v / 256 ^ 3 % 256, v / 256 ^ 2 % 256, v / 256 ^ 1 % 256, v / 256 ^ 0 % 256] := by
    simp [makeIV, List.range_succ]
  rw [h]
  simp only [beDecode, List.foldl]
  norm_num
  omega

theorem makeIV_inj (a b : Nat) (ha : a < 2 ^ 64) (hb : b < 2 ^ 64)
    (h : makeIV a = makeIV b) : a = b := by
  have h2 := congrArg (fun l => beDecode (l.drop 4)) h
  simp only at h2
  rw [beDecode_makeIV a ha, beDecode_makeIV b hb] at h2
  exact h2

/-- C1: for every byte sequence P (including the empty sequence) and every
32-byte key held by the transport's KeyProvider, encrypting P yields a
frame that the same transport's Decrypt recovers exactly P from —
`Decrypt (Encrypt P K) K = P` — for any block-cipher primitive. -/
theorem encrypt_decrypt_roundtrip (E : BlockCipher) (st : TransportAES256) (pt : List Nat)
    (hk : st.key.length = AES256_KEY_SIZE) :
    ∃ frame st2, TransportAES256.Encrypt E st pt = .ok (frame, st2) ∧
      TransportAES256.Decrypt E st.key frame = .ok pt :=
  ⟨_, _, Encrypt_ok E st pt hk, Decrypt_frameOf E st.key st.counter pt hk⟩

/-- Witness for C1 at the concrete cipher `E0`, state `st0` and
plaintext `[1, 2, 3]`. -/
theorem encrypt_decrypt_roundtrip_w :
    ∃ frame st2, TransportAES256.Encrypt E0 st0 [1, 2, 3] = .ok (frame, st2) ∧
      TransportAES256.Decrypt E0 st0.key frame = .ok [1, 2, 3] :=
  encrypt_decrypt_roundtrip E0 st0 [1, 2, 3] (by decide)

/-- C2: whenever the decrypt path fails (short frame, bad key size, or
GCM tag mismatch — every throwing path of `Decrypt`), the receive handler
invokes no callback and returns normally with the state unchanged, so no
error crosses the transport boundary. -/
theorem decrypt_error_no_callback (E : BlockCipher) (st : TransportAES256)
    (data : List Nat) (sender : Endpoint) (msg : String)
    (h : TransportAES256.Decrypt E st.key data = .error msg) :
    TransportAES256.DecryptAndHandle E st data sender = ([], st) := by
  unfold TransportAES256.DecryptAndHandle
  rw [h]

/-- Witness for C2: the empty datagram fails decryption and is silently
discarded even though a callback is registered. -/
theorem decrypt_error_no_callback_w :
    TransportAES256.DecryptAndHandle E0 stCb [] ep0 = ([], stCb) :=
  decrypt_error_no_callback E0 stCb [] ep0 "Encrypted packet is too short." rfl

/-- C3: across any sequence of consecutive Send operations on one
instance (up to 2^64 of them, so in particular up to 10,000), the emitted
frames are exactly those of `frameSeq`, and the 12-byte nonces of any two
distinct emitted frames differ — no nonce is reused within the
instance's send sequence. -/
theorem send_nonces_pairwise_distinct (E : BlockCipher) (st : TransportAES256)
    (pts : List (List Nat)) (dest : Endpoint)
    (hk : st.key.length = AES256_KEY_SIZE) (hN : pts.length ≤ 2 ^ 64)
    (i j : Nat) (hi : i < pts.length) (hj : j < pts.length) (hij : i ≠ j) :
    TransportAES256.iterSend E st pts dest =
      { st with counter := st.counter + pts.length,
                base := { st.base with sent := st.base.sent ++
                  (TransportAES256.frameSeq E st.key st.counter pts).map (fun f => (f, dest)) } } ∧
    ((TransportAES256.frameSeq E st.key st.counter pts).getD i []).take GCM_IV_SIZE ≠
      ((TransportAES256.frameSeq E st.key st.counter pts).getD j []).take GCM_IV_SIZE := by
  refine ⟨iterSend_spec E dest pts st hk, ?_⟩
  rw [frameSeq_nonce E st.key pts st.counter i hi, frameSeq_nonce E st.key pts st.counter j hj]
  intro hEq
  have h2 : (st.counter + i) % 2 ^ 64 = (st.counter + j) % 2 ^ 64 :=
    makeIV_inj _ _ (Nat.mod_lt _ (by norm_num)) (Nat.mod_lt _ (by norm_num)) hEq
  have e64 : (2 : Nat) ^ 64 = 18446744073709551616 := by norm_num
  rw [e64] at h2 hN
  omega

/-- Witness for C3: two consecutive empty-payload sends from `stCb` emit
frames with different nonces (scenario 4 of the spec). -/
theorem send_nonces_pairwise_distinct_w :
    ((TransportAES256.frameSeq E0 stCb.key stCb.counter [[], []]).getD 0 []).take GCM_IV_SIZE ≠
      ((TransportAES256.frameSeq E0 stCb.key stCb.counter [[], []]).getD 1 []).take GCM_IV_SIZE :=
  (send_nonces_pairwise_distinct E0 stCb [[], []] ep0 (by decide) (by decide)
    0 1 (by decide) (by decide) (by decide)).2

/-- C4: evaluation of the nonce builder at counter value 1.  The code
stores the 64-bit counter into nonce bytes 4-11 most-significant-byte
first (big-endian): the nonce is `00 00 00 01 00 00 00 00 00 00 00 01`,
with byte 11 equal to 1 and byte 4 equal to 0, whereas the little-endian
layout the claim (and the code's own comment) describe would put the 1 at
byte 4. -/
theorem nonce_counter_big_endian_eval :
    makeIV 1 = [0, 0, 0, 1, 0, 0, 0, 0, 0, 0, 0, 1] ∧
    specNonceLE 1 = [0, 0, 0, 1, 1, 0, 0, 0, 0, 0, 0, 0] ∧
    makeIV 1 ≠ specNonceLE 1 := by
  refine ⟨by decide, by decide, by decide⟩

/-- C5: every received buffer shorter than 28 bytes is rejected by
`Decrypt` with the too-short error, and the receive handler neither
invokes the callback nor lets the error escape (it returns normally with
no deliveries). -/
theorem short_frame_rejected (E : BlockCipher) (st : TransportAES256)
    (data : List Nat) (sender : Endpoint)
    (h : data.length < ENCRYPTED_OVERHEAD) :
    TransportAES256.Decrypt E st.key data = .error "Encrypted packet is too short." ∧
    TransportAES256.DecryptAndHandle E st data sender = ([], st) := by
  have hd : TransportAES256.Decrypt E st.key data = .error "Encrypted packet is too short." := by
    unfold TransportAES256.Decrypt
    rw [if_pos h]
  refine ⟨hd, ?_⟩
  unfold TransportAES256.DecryptAndHandle
  rw [hd]

/-- Witness for C5: a 10-byte buffer (scenario 5 of the spec) is rejected
without invoking the registered callback. -/
theorem short_frame_rejected_w :
    TransportAES256.Decrypt E0 stCb.key (List.replicate 10 0)
      = .error "Encrypted packet is too short." ∧
    TransportAES256.DecryptAndHandle E0 stCb (List.replicate 10 0) ep0 = ([], stCb) :=
  short_frame_rejected E0 stCb (List.replicate 10 0) ep0 (by decide)

/-- C6 counterexample: with a key that is not 32 bytes, `Start` does not
fail — it starts the wrapped raw transport anyway, contradicting the
claim that `Start` reports a configuration error rather than starting the
wrapped transport. -/
theorem start_no_key_check_cex :
    badSt.key.length ≠ AES256_KEY_SIZE ∧
    (TransportAES256.Start badSt).base.started = true :=
  ⟨by decide, rfl⟩

/-- C6 (amended): `Start` performs no key validation and unconditionally
starts the wrapped raw transport; an invalid-size key is instead rejected
at encryption time — every `Send` under such a key fails and transmits
nothing. -/
theorem start_unconditional (E : BlockCipher) (st : TransportAES256)
    (pt : List Nat) (dest : Endpoint) :
    TransportAES256.Start st = { st with base := { st.base with started := true } } ∧
    (st.key.length ≠ AES256_KEY_SIZE → TransportAES256.Send E st pt dest = st) :=
  ⟨rfl, fun h => Send_of_error E st pt dest _ (Encrypt_err E st pt h)⟩

/-- Witness for C6 (amended) at the 31-byte-key state `badSt`. -/
theorem start_unconditional_w :
    TransportAES256.Start badSt
      = { badSt with base := { badSt.base with started := true } } ∧
    TransportAES256.Send E0 badSt [] ep0 = badSt :=
  ⟨(start_unconditional E0 badSt [] ep0).1, (start_unconditional E0 badSt [] ep0).2 (by decide)⟩

/-- C7: a key that is not exactly 32 bytes makes `Encrypt` fail, and any
`Encrypt` failure makes `Send` hand nothing to the raw transport and
leave the state unchanged (no retry, nothing transmitted). -/
theorem send_failure_no_transmit (E : BlockCipher) (st : TransportAES256)
    (pt : List Nat) (dest : Endpoint) :
    (st.key.length ≠ AES256_KEY_SIZE →
      TransportAES256.Encrypt E st pt = .error "Invalid encryption key size.") ∧
    (∀ msg, TransportAES256.Encrypt E st pt = .error msg →
      TransportAES256.Send E st pt dest = st) :=
  ⟨fun h => Encrypt_err E st pt h, fun msg h => Send_of_error E st pt dest msg h⟩

/-- Witness for C7 at the 31-byte-key state `badSt`: the send is rejected
and nothing reaches the raw transport. -/
theorem send_failure_no_transmit_w :
    TransportAES256.Encrypt E0 badSt [] = .error "Invalid encryption key size." ∧
    TransportAES256.Send E0 badSt [] ep0 = badSt :=
  ⟨(send_failure_no_transmit E0 badSt [] ep0).1 (by decide),
    (send_failure_no_transmit E0 badSt [] ep0).2 "Invalid encryption key size."
      ((send_failure_no_transmit E0 badSt [] ep0).1 (by decide))⟩

/-- C8 counterexample: a supplied salt of length 0 (the empty vector) is
not 16 bytes, yet construction succeeds — the empty salt takes the
generate-a-random-salt path instead of failing with a configuration
error. -/
theorem empty_salt_accepted_cex :
    ([] : List Nat).length ≠ PBKDF2_SALT_SIZE ∧
    mkPBKDF2KeyProvider true (List.replicate 16 7) pb0 [] []
      = .ok ⟨List.replicate 32 1, List.replicate 16 7⟩ :=
  ⟨by decide, rfl⟩

/-- C8 (amended): constructing with no salt or an empty salt generates a
16-byte salt from the random source (and fails if the random source
fails); a supplied non-empty salt whose length is not exactly 16 bytes
fails with a configuration error; and every successfully constructed
provider's key is the output of a successful derivation, so no provider
exists in a partially-initialized state. -/
theorem pbkdf2_construction (randOk : Bool) (rs : List Nat)
    (pbkdf2 : List Nat → List Nat → Nat → Option (List Nat))
    (password salt_bytes : List Nat) :
    (salt_bytes = [] → randOk = true →
      ∀ k, pbkdf2 password (genSalt rs) PBKDF2_ITERATIONS = some k →
        mkPBKDF2KeyProvider randOk rs pbkdf2 password salt_bytes = .ok ⟨k, genSalt rs⟩ ∧
        (genSalt rs).length = PBKDF2_SALT_SIZE) ∧
    (salt_bytes = [] → randOk = false →
      mkPBKDF2KeyProvider randOk rs pbkdf2 password salt_bytes
        = .error "Failed to generate random salt.") ∧
    (salt_bytes ≠ [] → salt_bytes.length ≠ PBKDF2_SALT_SIZE →
      mkPBKDF2KeyProvider randOk rs pbkdf2 password salt_bytes
        = .error "Provided salt size must be 16 bytes.") ∧
    (∀ p, mkPBKDF2KeyProvider randOk rs pbkdf2 password salt_bytes = .ok p →
      pbkdf2 password p.salt PBKDF2_ITERATIONS = some p.derived_key) := by
  refine ⟨?_, ?_, ?_, ?_⟩
  · intro hs hr k hpb
    refine ⟨?_, ?_⟩
    · unfold mkPBKDF2KeyProvider
      rw [if_pos hs, if_pos hr, hpb]
    · simp [genSalt, PBKDF2_SALT_SIZE]
  · intro hs hr
    unfold mkPBKDF2KeyProvider
    rw [if_pos hs, if_neg (by simp [hr])]
  · intro hs hl
    unfold mkPBKDF2KeyProvider
    rw [if_neg hs, if_pos hl]
  · intro p hp
    unfold mkPBKDF2KeyProvider at hp
    split at hp
    · split at hp
      · split at hp
        next heq => cases hp; exact heq
        next heq => exact Except.noConfusion hp
      · exact Except.noConfusion hp
    · split at hp
      · exact Except.noConfusion hp
      · split at hp
        next heq => cases hp; exact heq
        next heq => exact Except.noConfusion hp

/-- Witness for C8 (amended): empty salt with a working RNG constructs a
provider with the generated 16-byte salt; a 3-byte salt is rejected. -/
theorem pbkdf2_construction_w :
    mkPBKDF2KeyProvider true (List.replicate 16 7) pb0 [] []
      = .ok ⟨List.replicate 32 1, genSalt (List.replicate 16 7)⟩ ∧
    (genSalt (List.replicate 16 7)).length = PBKDF2_SALT_SIZE ∧
    mkPBKDF2KeyProvider true (List.replicate 16 7) pb0 [] [1, 2, 3]
      = .error "Provided salt size must be 16 bytes." :=
  ⟨((pbkdf2_construction true (List.replicate 16 7) pb0 [] []).1 rfl rfl
      (List.replicate 32 1) rfl).1,
    ((pbkdf2_construction true (List.replicate 16 7) pb0 [] []).1 rfl rfl
      (List.replicate 32 1) rfl).2,
    (pbkdf2_construction true (List.replicate 16 7) pb0 [] [1, 2, 3]).2.2.1
      (by decide) (by decide)⟩

/-- C9 counterexample: `Stop` leaves a registered receive callback in
place — it is not released, contradicting the claim. -/
theorem stop_keeps_callback_cex :
    stCb.callbackSet = true ∧ (TransportAES256.Stop stCb).callbackSet = true :=
  ⟨rfl, rfl⟩

/-- C9 (amended): `Stop` stops the wrapped raw transport and nothing
else — the registered callback reference is kept, not released — and
calling it again is safe and changes nothing further (idempotent, no
failure). -/
theorem stop_idempotent_keeps_callback (st : TransportAES256) :
    TransportAES256.Stop st = { st with base := { st.base with started := false } } ∧
    TransportAES256.Stop (TransportAES256.Stop st) = TransportAES256.Stop st ∧
    (TransportAES256.Stop st).callbackSet = st.callbackSet :=
  ⟨rfl, rfl, rfl⟩

/-- C10: when no receive callback is registered, a frame that decrypts
and authenticates successfully is silently dropped — the decryption is
computed, nothing is delivered, and the handler returns normally with the
state unchanged. -/
theorem no_callback_silent_drop (E : BlockCipher) (st : TransportAES256)
    (data : List Nat) (sender : Endpoint) (pt : List Nat)
    (hcb : st.callbackSet = false)
    (h : TransportAES256.Decrypt E st.key data = .ok pt) :
    TransportAES256.DecryptAndHandle E st data sender = ([], st) := by
  unfold TransportAES256.DecryptAndHandle
  rw [h, hcb]
  simp

/-- Witness for C10: the valid empty-payload frame `frame0` decrypts
successfully under `st0` (no callback registered) and is dropped. -/
theorem no_callback_silent_drop_w :
    TransportAES256.DecryptAndHandle E0 st0 frame0 ep0 = ([], st0) :=
  no_callback_silent_drop E0 st0 frame0 ep0 [] rfl rfl

end hcs_net
